import Mathlib

/-!
# Verification of the $MEGA mining bot core (src/bot.py)

Shallow embedding of the reward-engine core of `bot.py`: user profiles,
energy plans, the mining claim flow (`mine`), the daily-streak update
(`check_daily_streak`), achievement refresh (`check_achievements`),
referral signup attribution (the referral block of `start`), and sponsor
task completion (`verify_task`).

Modelling conventions:
* timestamps are integers counting seconds (`datetime` values in the source);
  `timedelta.days` becomes floor division by 86400 (`Int.fdiv`), matching
  Python's floor semantics for `timedelta`;
* monetary amounts are rationals (the source uses Python numbers; exact
  arithmetic is used here, see the discussion of claim C8 in RESULTS);
* the random jackpot draw (`random.random() < 0.1`) and the early-bird
  clock read are passed in as explicit booleans (test seams);
* the source calls `datetime.now()` once in `mine` (for the cooldown check
  and `last_mine_time`) and again inside `check_daily_streak`; these two
  reads are the `now` and `nowStreak` parameters of `mine`;
* the global `user_profiles` dict is an association list `Store`;
* rejected requests are reported through a `reason` field mirroring the
  source's reply branches ("You need an active energy plan" ↦
  `NoActivePlan`, "Cooldown active" ↦ `CooldownActive`, and so on).
-/

namespace Mega

/-- `STREAK_BONUS = 2` ($MEGA per day of streak), bot.py line 31. -/
def STREAK_BONUS : ℕ := 2

/-- `MAX_STREAK_BONUS = 100`, bot.py line 32. -/
def MAX_STREAK_BONUS : ℕ := 100

/-- `LEVEL_THRESHOLD = 1000`, bot.py line 33. -/
def LEVEL_THRESHOLD : ℚ := 1000

/-- `LEVEL_BONUS_PERCENT = 0.1`, bot.py line 34. -/
def LEVEL_BONUS_PERCENT : ℚ := 1 / 10

/-- `REFERRAL_REWARD` (env default 50), bot.py line 26. -/
def REFERRAL_REWARD : ℚ := 50

/-- One entry of the `ENERGY_PLANS` catalog (price in Stars, daily limit in $MEGA). -/
structure EnergyPlan where
  price : ℚ
  daily_limit : ℚ
deriving DecidableEq, Repr

/-- The `ENERGY_PLANS` catalog, bot.py lines 54-66. -/
def ENERGY_PLANS (planId : String) : Option EnergyPlan :=
  if planId = "max" then some ⟨50, 50⟩
  else if planId = "unlimited" then some ⟨250, 150⟩
  else none

/-- `UserProfile` (bot.py lines 69-82): the per-user mutable state.  The fields
`last_daily_bonus` and the display helpers are omitted (unused by the claims). -/
structure UserProfile where
  user_id : ℕ
  balance : ℚ
  total_mined : ℚ
  mining_count : ℕ
  referral_count : ℕ
  achievements : List String
  last_mine_time : Option ℤ
  current_streak : ℕ
  highest_streak : ℕ
  referred_by : Option ℕ
  energy_plan : Option String
  energy_expires : Option ℤ
deriving DecidableEq, Repr

/-- `UserProfile.__init__`: a fresh profile for `user_id`. -/
def UserProfile.new (uid : ℕ) : UserProfile :=
  { user_id := uid, balance := 0, total_mined := 0, mining_count := 0,
    referral_count := 0, achievements := [], last_mine_time := none,
    current_streak := 0, highest_streak := 0, referred_by := none,
    energy_plan := none, energy_expires := none }

/-- `UserProfile.has_active_plan` (bot.py lines 84-88): plan and expiry both
set, and `now < expiry`.  (`datetime.now()` is the `now` argument here.) -/
def has_active_plan (p : UserProfile) (now : ℤ) : Bool :=
  match p.energy_plan, p.energy_expires with
  | some _, some e => decide (now < e)
  | _, _ => false

/-- `UserProfile.get_daily_limit` (bot.py lines 90-94): 0 without an active
plan, else the catalog's `daily_limit` for the stored plan id. -/
def get_daily_limit (p : UserProfile) (now : ℤ) : ℚ :=
  if has_active_plan p now then
    match p.energy_plan with
    | some planId => ((ENERGY_PLANS planId).map EnergyPlan.daily_limit).getD 0
    | none => 0
  else 0

/-- Python `int()` applied to a rational: truncation toward zero
(`Int.tdiv` of numerator by denominator). -/
def pyInt (q : ℚ) : ℤ :=
  q.num.tdiv q.den

/-- `calculate_level` (bot.py lines 139-141): `int(total_mined / LEVEL_THRESHOLD)`. -/
def calculate_level (total_mined : ℚ) : ℤ :=
  pyInt (total_mined / LEVEL_THRESHOLD)

/-- `calculate_level_bonus` (bot.py lines 143-145): `level * LEVEL_BONUS_PERCENT`. -/
def calculate_level_bonus (level : ℤ) : ℚ :=
  (level : ℚ) * LEVEL_BONUS_PERCENT

/-- Python `(now - last).days` for second-valued timestamps: `timedelta.days`
is the floor of the duration in days, hence floor division by 86400. -/
def daysDifference (now last : ℤ) : ℤ :=
  Int.fdiv (now - last) 86400

/-- Result of `check_daily_streak`: the updated profile, the weekly milestone
bonus credited to balance (0 or 50), and whether the streak-broken branch ran. -/
structure StreakResult where
  profile : UserProfile
  milestoneBonus : ℚ
  streakBroken : Bool
deriving DecidableEq, Repr

/-- `check_daily_streak` (bot.py lines 328-357).  If `last_mine_time` is unset
the function does nothing.  Otherwise, with `days_difference ≤ 1` the streak
is incremented, `highest_streak` is recomputed as the max, and every 7th day
a flat 50 $MEGA milestone bonus is added directly to balance; with
`days_difference > 1` the streak resets to 1 (after a farewell notice when it
was positive). -/
def check_daily_streak (p : UserProfile) (now : ℤ) : StreakResult :=
  match p.last_mine_time with
  | none => ⟨p, 0, false⟩
  | some last =>
      if daysDifference now last ≤ 1 then
        let cs := p.current_streak + 1
        let hs := max cs p.highest_streak
        let p1 := { p with current_streak := cs, highest_streak := hs }
        if cs % 7 = 0 then
          ⟨{ p1 with balance := p1.balance + 50 }, 50, false⟩
        else
          ⟨p1, 0, false⟩
      else
        ⟨{ p with current_streak := 1 }, 0, true⟩

/-- The achievement set after `check_achievements` (bot.py lines 289-315):
five independent guarded inserts, each skipped when already unlocked.
`earlyBird` stands for the clock read `(now - daily_reset).total_seconds() <= 3600`. -/
def achievementsAfter (p : UserProfile) (earlyBird : Bool) : List String :=
  let a0 := p.achievements
  let a1 := if p.mining_count = 1 ∧ "first_mine" ∉ a0 then "first_mine" :: a0 else a0
  let a2 := if p.current_streak ≥ 7 ∧ "mining_streak_7" ∉ a1 then "mining_streak_7" :: a1 else a1
  let a3 := if p.referral_count ≥ 5 ∧ "referral_master" ∉ a2 then "referral_master" :: a2 else a2
  let a4 := if p.total_mined ≥ 1000 ∧ "mega_miner" ∉ a3 then "mega_miner" :: a3 else a3
  if earlyBird ∧ "early_bird" ∉ a4 then "early_bird" :: a4 else a4

/-- `check_achievements` (bot.py lines 289-326): mutates only the profile's
achievement set. -/
def check_achievements (p : UserProfile) (earlyBird : Bool) : UserProfile :=
  { p with achievements := achievementsAfter p earlyBird }

/-- Rejection reasons of `mine`, mirroring its reply branches. -/
inductive MineReason where
  | NoActivePlan
  | CooldownActive
deriving DecidableEq, Repr

/-- Result of a `mine` call: acceptance, rejection reason, the four bonus
terms and the payout (all 0 on rejection), the streak outcome, and the
profile as left by the whole flow. -/
structure MineResult where
  accepted : Bool
  reason : Option MineReason
  base : ℚ
  jackpot : ℚ
  streakBonus : ℚ
  levelBonus : ℚ
  payout : ℚ
  streakBroken : Bool
  milestoneBonus : ℚ
  profile : UserProfile
deriving DecidableEq, Repr

/-- `mine` (bot.py lines 419-500), the per-profile claim flow (suspension and
profile creation are handled by the caller/entry code).  Order of checks:
(1) active energy plan, else reject `NoActivePlan`; (2) cooldown
(`now - last_mine_time < 24h`), else reject `CooldownActive`.  On success the
payout is `daily_limit + jackpot + streak_bonus + level_bonus`, where the
streak bonus is computed from the profile's streak BEFORE the streak update;
then `balance`, `total_mined`, `mining_count`, `last_mine_time` are mutated,
and only afterwards `check_daily_streak` (at clock read `nowStreak`) and
`check_achievements` run. -/
def mine (p : UserProfile) (now nowStreak : ℤ) (jackpotHit earlyBird : Bool) :
    MineResult :=
  if ¬ has_active_plan p now then
    ⟨false, some .NoActivePlan, 0, 0, 0, 0, 0, false, 0, p⟩
  else
    match p.last_mine_time with
    | some last =>
        if now - last < 86400 then
          ⟨false, some .CooldownActive, 0, 0, 0, 0, 0, false, 0, p⟩
        else
          mineBody p now nowStreak jackpotHit earlyBird
    | none => mineBody p now nowStreak jackpotHit earlyBird
where
  /-- The successful-claim body (bot.py lines 465-500). -/
  mineBody (p : UserProfile) (now nowStreak : ℤ) (jackpotHit earlyBird : Bool) :
      MineResult :=
    let daily_limit := get_daily_limit p now
    let bonus := if jackpotHit then daily_limit * (1 / 10) else 0
    let streak_bonus : ℚ :=
      if p.current_streak > 0 then
        ((min (p.current_streak * STREAK_BONUS) MAX_STREAK_BONUS : ℕ) : ℚ)
      else 0
    let level := calculate_level p.total_mined
    let level_bonus := calculate_level_bonus level * daily_limit
    let total_reward := daily_limit + bonus + streak_bonus + level_bonus
    let p1 := { p with balance := p.balance + total_reward,
                       total_mined := p.total_mined + total_reward,
                       mining_count := p.mining_count + 1,
                       last_mine_time := some now }
    let sr := check_daily_streak p1 nowStreak
    let p2 := check_achievements sr.profile earlyBird
    ⟨true, none, daily_limit, bonus, streak_bonus, level_bonus, total_reward,
      sr.streakBroken, sr.milestoneBonus, p2⟩

/-- The global `user_profiles` dict, as an association list keyed by user id. -/
def Store := List (ℕ × UserProfile)

instance : DecidableEq Store := by
  unfold Store
  infer_instance

/-- Dictionary lookup `user_profiles.get(uid)` / `uid in user_profiles`. -/
def findProfile (s : Store) (uid : ℕ) : Option UserProfile :=
  match s with
  | [] => none
  | (k, p) :: rest => if k = uid then some p else findProfile rest uid

/-- Dictionary write `user_profiles[uid] = p` (overwrite or append). -/
def setProfile (s : Store) (uid : ℕ) (p : UserProfile) : Store :=
  match s with
  | [] => [(uid, p)]
  | (k, q) :: rest =>
      if k = uid then (uid, p) :: rest else (k, q) :: setProfile rest uid p

/-- The referral block of `start` (bot.py lines 369-397): with a parsed
referrer argument, if `referred_by ≠ user_id`, the referrer has a profile,
and the new user has none, credit the referrer `REFERRAL_REWARD` and one
referral, and create the new profile with balance `REFERRAL_REWARD` and
`referred_by` set; otherwise do nothing. -/
def handle_referral (s : Store) (uid : ℕ) (arg : Option ℕ) : Store :=
  match arg with
  | none => s
  | some r =>
      if r ≠ uid then
        match findProfile s r with
        | some rp =>
            match findProfile s uid with
            | none =>
                let rp1 := { rp with balance := rp.balance + REFERRAL_REWARD,
                                     referral_count := rp.referral_count + 1 }
                let np := { UserProfile.new uid with balance := REFERRAL_REWARD,
                                                     referred_by := some r }
                setProfile (setProfile s r rp1) uid np
            | some _ => s
        | none => s
      else s

/-- `start` (bot.py lines 359-417), state effects only: the referral block,
then plain profile creation when the user still has no profile. -/
def start (s : Store) (uid : ℕ) (arg : Option ℕ) : Store :=
  let s1 := handle_referral s uid arg
  match findProfile s1 uid with
  | some _ => s1
  | none => setProfile s1 uid (UserProfile.new uid)

/-- A sponsor `Task` (bot.py lines 889-908): catalog fields plus the
completion set.  `has_channel` records whether `channel_id` is set (truthy),
which gates the external membership verification. -/
structure Task where
  task_id : ℕ
  reward : ℚ
  completed_by : List ℕ
  has_channel : Bool
deriving DecidableEq, Repr

/-- Outcomes of `verify_task`, mirroring its reply branches. -/
inductive TaskResult where
  | Awarded
  | AlreadyCompleted
  | VerificationFailed
deriving DecidableEq, Repr

/-- `verify_task` (bot.py lines 1123-1164), for an existing task.  Rejects
when `uid` is already in `completed_by`; when the task has a channel and the
external membership check (`verified`) fails, rejects without mutation.
Otherwise: `profile = user_profiles.get(user_id, UserProfile(user_id))` —
when the store has the profile, its balance is credited with `task.reward`;
when it does not, the credited object is the freshly constructed default,
which is never inserted into the store, so the store is unchanged.  In both
cases `uid` is added to `completed_by`. -/
def verify_task (t : Task) (s : Store) (uid : ℕ) (verified : Bool) :
    TaskResult × Task × Store :=
  if uid ∈ t.completed_by then
    (.AlreadyCompleted, t, s)
  else if t.has_channel ∧ ¬ verified then
    (.VerificationFailed, t, s)
  else
    let s1 := match findProfile s uid with
      | some p => setProfile s uid { p with balance := p.balance + t.reward }
      | none => s
    (.Awarded, { t with completed_by := uid :: t.completed_by }, s1)

/-! ## Concrete inputs used to instantiate the theorems below -/

/-- A brand-new user holding an active "max" plan (no prior claims). -/
def freshMaxProfile : UserProfile :=
  { UserProfile.new 1 with energy_plan := some "max", energy_expires := some 1000000 }

/-- A user on a 6-day streak whose last claim was at time 0, holding an
active "max" plan; claiming at time 86400 passes the cooldown and pushes
the streak to the 7-day milestone. -/
def milestoneProfile : UserProfile :=
  { UserProfile.new 2 with
      current_streak := 6, highest_streak := 6, last_mine_time := some 0,
      energy_plan := some "max", energy_expires := some 10000000 }

/-- A user whose last claim was at time 0 and whose "max" plan expired at
time 10: at time 3600 the cooldown is still active but the plan is gone. -/
def expiredPlanProfile : UserProfile :=
  { UserProfile.new 3 with
      last_mine_time := some 0, energy_plan := some "max", energy_expires := some 10 }

/-- A profile with a recorded last-claim time but zero streak counters
(`current_streak = 0`, `highest_streak = 0`). -/
def zeroStreakProfile : UserProfile :=
  { UserProfile.new 4 with last_mine_time := some 0 }

/-- A user on a 4-day streak, used to instantiate the corrected bonus formula. -/
def streak4Profile : UserProfile :=
  { UserProfile.new 5 with
      current_streak := 4, highest_streak := 4, last_mine_time := some 0,
      energy_plan := some "max", energy_expires := some 10000000 }

/-- A channel-gated sponsor task paying 50, not yet completed by anyone. -/
def channelTask : Task :=
  { task_id := 1, reward := 50, completed_by := [], has_channel := true }

/-- A store holding only the profile of user 10 (a potential referrer). -/
def referrerStore : Store :=
  [(10, UserProfile.new 10)]

/-! ## Helper lemmas -/

theorem daysDifference_eq_zero (now last : ℤ) (h1 : last ≤ now) (h2 : now < last + 86400) :
    daysDifference now last = 0 := by
  unfold daysDifference
  obtain ⟨n, hn⟩ := Int.eq_ofNat_of_zero_le (by omega : (0 : ℤ) ≤ now - last)
  rw [hn]
  have hlt : n < 86400 := by omega
  have h86 : ((86400 : ℕ) : ℤ) = (86400 : ℤ) := by norm_num
  rw [← h86, ← Int.ofNat_fdiv, Nat.div_eq_of_lt hlt]
  rfl

theorem check_achievements_fields (p : UserProfile) (eb : Bool) :
    (check_achievements p eb).balance = p.balance ∧
    (check_achievements p eb).total_mined = p.total_mined ∧
    (check_achievements p eb).mining_count = p.mining_count ∧
    (check_achievements p eb).current_streak = p.current_streak ∧
    (check_achievements p eb).highest_streak = p.highest_streak ∧
    (check_achievements p eb).last_mine_time = p.last_mine_time :=
  ⟨rfl, rfl, rfl, rfl, rfl, rfl⟩

theorem check_daily_streak_total_mined (p : UserProfile) (now : ℤ) :
    (check_daily_streak p now).profile.total_mined = p.total_mined := by
  unfold check_daily_streak
  cases p.last_mine_time
  · rfl
  · dsimp only
    split
    · split <;> rfl
    · rfl

theorem check_daily_streak_mining_count (p : UserProfile) (now : ℤ) :
    (check_daily_streak p now).profile.mining_count = p.mining_count := by
  unfold check_daily_streak
  cases p.last_mine_time
  · rfl
  · dsimp only
    split
    · split <;> rfl
    · rfl

theorem check_daily_streak_increment (p : UserProfile) (now last : ℤ)
    (hl : p.last_mine_time = some last) (hd : daysDifference now last ≤ 1) :
    (check_daily_streak p now).profile.current_streak = p.current_streak + 1 ∧
    (check_daily_streak p now).profile.highest_streak =
      max (p.current_streak + 1) p.highest_streak ∧
    (check_daily_streak p now).profile.balance =
      p.balance + (if (p.current_streak + 1) % 7 = 0 then 50 else 0) ∧
    (check_daily_streak p now).milestoneBonus =
      (if (p.current_streak + 1) % 7 = 0 then 50 else 0) ∧
    (check_daily_streak p now).streakBroken = false := by
  unfold check_daily_streak
  rw [hl]
  dsimp only
  rw [if_pos hd]
  by_cases h7 : (p.current_streak + 1) % 7 = 0
  · rw [if_pos h7, if_pos h7]
    exact ⟨rfl, rfl, rfl, rfl, rfl⟩
  · rw [if_neg h7, if_neg h7]
    refine ⟨rfl, rfl, ?_, rfl, rfl⟩
    rw [add_zero]

theorem check_daily_streak_reset (p : UserProfile) (now last : ℤ)
    (hl : p.last_mine_time = some last) (hd : ¬ daysDifference now last ≤ 1) :
    (check_daily_streak p now).profile.current_streak = 1 ∧
    (check_daily_streak p now).profile.highest_streak = p.highest_streak ∧
    (check_daily_streak p now).profile.balance = p.balance ∧
    (check_daily_streak p now).milestoneBonus = 0 ∧
    (check_daily_streak p now).streakBroken = true := by
  unfold check_daily_streak
  rw [hl]
  dsimp only
  rw [if_neg hd]
  exact ⟨rfl, rfl, rfl, rfl, rfl⟩

theorem mine_accepted_body (p : UserProfile) (now nowStreak : ℤ) (jb eb : Bool)
    (h : (mine p now nowStreak jb eb).accepted = true) :
    mine p now nowStreak jb eb = mine.mineBody p now nowStreak jb eb := by
  unfold mine at h ⊢
  by_cases hp : has_active_plan p now = true
  · rw [if_neg (not_not_intro hp)] at h ⊢
    cases hl : p.last_mine_time with
    | none => rfl
    | some l =>
        rw [hl] at h
        dsimp only at h ⊢
        by_cases hcd : now - l < 86400
        · rw [if_pos hcd] at h
          simp at h
        · rw [if_neg hcd]
  · rw [if_pos hp] at h
    simp at h

theorem mine_accepted_conditions (p : UserProfile) (now nowStreak : ℤ) (jb eb : Bool)
    (h : (mine p now nowStreak jb eb).accepted = true) :
    has_active_plan p now = true ∧ ∀ l, p.last_mine_time = some l → 86400 ≤ now - l := by
  unfold mine at h
  by_cases hp : has_active_plan p now = true
  · refine ⟨hp, ?_⟩
    intro l hl
    rw [if_neg (not_not_intro hp), hl] at h
    dsimp only at h
    by_cases hcd : now - l < 86400
    · rw [if_pos hcd] at h
      simp at h
    · omega
  · rw [if_pos hp] at h
    simp at h

theorem mineBody_payout (p : UserProfile) (now nowStreak : ℤ) (jb eb : Bool) :
    (mine.mineBody p now nowStreak jb eb).payout =
      get_daily_limit p now +
        (if jb then get_daily_limit p now * (1 / 10) else 0) +
        (if 0 < p.current_streak
          then ((min (p.current_streak * STREAK_BONUS) MAX_STREAK_BONUS : ℕ) : ℚ) else 0) +
        calculate_level_bonus (calculate_level p.total_mined) * get_daily_limit p now := rfl

theorem mineBody_streakBonus (p : UserProfile) (now nowStreak : ℤ) (jb eb : Bool) :
    (mine.mineBody p now nowStreak jb eb).streakBonus =
      (if 0 < p.current_streak
        then ((min (p.current_streak * STREAK_BONUS) MAX_STREAK_BONUS : ℕ) : ℚ) else 0) := rfl

theorem mineBody_profile (p : UserProfile) (now nowStreak : ℤ) (jb eb : Bool) :
    (mine.mineBody p now nowStreak jb eb).profile =
      check_achievements
        (check_daily_streak
          { p with balance := p.balance + (mine.mineBody p now nowStreak jb eb).payout,
                   total_mined := p.total_mined + (mine.mineBody p now nowStreak jb eb).payout,
                   mining_count := p.mining_count + 1,
                   last_mine_time := some now } nowStreak).profile eb := rfl

theorem findProfile_setProfile_self (s : Store) (uid : ℕ) (p : UserProfile) :
    findProfile (setProfile s uid p) uid = some p := by
  induction s with
  | nil => simp [setProfile, findProfile]
  | cons hd tl ih =>
      obtain ⟨k, q⟩ := hd
      unfold setProfile
      by_cases hk : k = uid
      · rw [if_pos hk]
        simp [findProfile]
      · rw [if_neg hk]
        unfold findProfile
        rw [if_neg hk]
        exact ih

theorem findProfile_setProfile_other (s : Store) (uid uid2 : ℕ) (p : UserProfile)
    (h : uid ≠ uid2) :
    findProfile (setProfile s uid p) uid2 = findProfile s uid2 := by
  induction s with
  | nil => simp [setProfile, findProfile, h]
  | cons hd tl ih =>
      obtain ⟨k, q⟩ := hd
      unfold setProfile
      by_cases hk : k = uid
      · rw [if_pos hk]
        unfold findProfile
        rw [if_neg h, if_neg (hk ▸ h)]
      · rw [if_neg hk]
        unfold findProfile
        by_cases hk2 : k = uid2
        · rw [if_pos hk2, if_pos hk2]
        · rw [if_neg hk2, if_neg hk2]
          exact ih

theorem mineBody_streakBroken (p : UserProfile) (now nowStreak : ℤ) (jb eb : Bool) :
    (mine.mineBody p now nowStreak jb eb).streakBroken =
      (check_daily_streak
        { p with balance := p.balance + (mine.mineBody p now nowStreak jb eb).payout,
                 total_mined := p.total_mined + (mine.mineBody p now nowStreak jb eb).payout,
                 mining_count := p.mining_count + 1,
                 last_mine_time := some now } nowStreak).streakBroken := rfl

theorem start_of_settled (t : Store) (u : ℕ) (a : Option ℕ) (q : UserProfile)
    (h1 : handle_referral t u a = t) (h2 : findProfile t u = some q) :
    start t u a = t := by
  simp only [start]
  rw [h1, h2]

/-! ## Claim theorems -/

/-- Claim C1 (corrected).  The claim asserts the streak bonus uses the
post-advance streak.  In the code, `mine` computes `streak_bonus` from the
streak held BEFORE `check_daily_streak` runs (bot.py lines 470, 482), so on
every successful claim the bonus is `min(pre_claim_streak * 2, 100)` (0 when
the pre-claim streak is 0). -/
theorem c1_streak_bonus_from_pre_advance_streak (p : UserProfile)
    (now nowStreak : ℤ) (jb eb : Bool)
    (h : (mine p now nowStreak jb eb).accepted = true) :
    (mine p now nowStreak jb eb).streakBonus =
      (if 0 < p.current_streak
        then ((min (p.current_streak * STREAK_BONUS) MAX_STREAK_BONUS : ℕ) : ℚ) else 0) := by
  rw [mine_accepted_body p now nowStreak jb eb h, mineBody_streakBonus]

/-- Claim C1, witness: a claim by the 4-day-streak user is accepted and pays
the pre-advance bonus `min(4*2, 100) = 8`. -/
theorem c1_streak_bonus_witness :
    (mine streak4Profile 86400 86400 false false).accepted = true ∧
    (mine streak4Profile 86400 86400 false false).streakBonus =
      (if 0 < streak4Profile.current_streak
        then ((min (streak4Profile.current_streak * STREAK_BONUS) MAX_STREAK_BONUS : ℕ) : ℚ)
        else 0) :=
  ⟨by decide, c1_streak_bonus_from_pre_advance_streak streak4Profile 86400 86400 false false
      (by decide)⟩

/-- Claim C1, counterexample to the claim as stated: on a first claim the
post-advance streak is 1, so the claim predicts a streak bonus of
`min(1*2, 100) = 2`, but the code pays 0. -/
theorem c1_post_advance_counterexample :
    (mine freshMaxProfile 0 0 false false).accepted = true ∧
    (mine freshMaxProfile 0 0 false false).profile.current_streak = 1 ∧
    (mine freshMaxProfile 0 0 false false).streakBonus = 0 ∧
    ¬ ((mine freshMaxProfile 0 0 false false).streakBonus =
        ((min ((mine freshMaxProfile 0 0 false false).profile.current_streak * STREAK_BONUS)
            MAX_STREAK_BONUS : ℕ) : ℚ)) := by
  refine ⟨by decide, by decide, by decide, ?_⟩
  intro hcon
  rw [(by decide : (mine freshMaxProfile 0 0 false false).profile.current_streak = 1)] at hcon
  rw [(by decide : (mine freshMaxProfile 0 0 false false).streakBonus = 0)] at hcon
  norm_num [STREAK_BONUS, MAX_STREAK_BONUS] at hcon

/-- Claim C2 (corrected).  On every successful claim, `total_mined` grows by
exactly the reported payout and `mining_count` by exactly 1; `balance` grows
by the payout PLUS the flat 50 weekly milestone bonus whenever the
post-advance streak is a multiple of 7 (`check_daily_streak` adds the
milestone directly to balance inside the same claim flow, bot.py line 343). -/
theorem c2_claim_mutation_deltas (p : UserProfile) (now nowStreak : ℤ) (jb eb : Bool)
    (h : (mine p now nowStreak jb eb).accepted = true) :
    (mine p now nowStreak jb eb).profile.total_mined
        = p.total_mined + (mine p now nowStreak jb eb).payout ∧
    (mine p now nowStreak jb eb).profile.mining_count = p.mining_count + 1 ∧
    (mine p now nowStreak jb eb).profile.balance
        = p.balance + (mine p now nowStreak jb eb).payout
            + (if (mine p now nowStreak jb eb).profile.current_streak % 7 = 0
                then (50 : ℚ) else 0) := by
  rw [mine_accepted_body p now nowStreak jb eb h]
  rw [mineBody_profile]
  set q := (mine.mineBody p now nowStreak jb eb).payout with hq
  set P1 : UserProfile :=
    { p with balance := p.balance + q, total_mined := p.total_mined + q,
             mining_count := p.mining_count + 1, last_mine_time := some now } with hP1
  obtain ⟨hb, ht, hm, hc, _, _⟩ :=
    check_achievements_fields (check_daily_streak P1 nowStreak).profile eb
  rw [hb, ht, hm, hc]
  refine ⟨?_, ?_, ?_⟩
  · rw [check_daily_streak_total_mined]
  · rw [check_daily_streak_mining_count]
  · have hl : P1.last_mine_time = some now := rfl
    by_cases hd : daysDifference nowStreak now ≤ 1
    · obtain ⟨hcs, _, hbal, _, _⟩ := check_daily_streak_increment P1 nowStreak now hl hd
      rw [hbal, hcs]
    · obtain ⟨hcs, _, hbal, _, _⟩ := check_daily_streak_reset P1 nowStreak now hl hd
      rw [hbal, hcs, if_neg (by norm_num : ¬ ((1 : ℕ) % 7 = 0)), add_zero]

/-- Claim C2, witness at the milestone input: the 6-day-streak user's claim
is accepted and the three delta equations hold (with the extra 50). -/
theorem c2_mutation_witness :
    (mine milestoneProfile 86400 86400 false false).accepted = true ∧
    ((mine milestoneProfile 86400 86400 false false).profile.total_mined
        = milestoneProfile.total_mined + (mine milestoneProfile 86400 86400 false false).payout ∧
      (mine milestoneProfile 86400 86400 false false).profile.mining_count
        = milestoneProfile.mining_count + 1 ∧
      (mine milestoneProfile 86400 86400 false false).profile.balance
        = milestoneProfile.balance + (mine milestoneProfile 86400 86400 false false).payout
            + (if (mine milestoneProfile 86400 86400 false false).profile.current_streak % 7 = 0
                then (50 : ℚ) else 0)) :=
  ⟨by decide, c2_claim_mutation_deltas milestoneProfile 86400 86400 false false (by decide)⟩

/-- Claim C2, counterexample to the claim as stated: on the claim that pushes
the streak to 7, the payout is 62 but balance grows by 112 (= 62 + 50
milestone), so balance does not increase by exactly the reported payout. -/
theorem c2_milestone_counterexample :
    (mine milestoneProfile 86400 86400 false false).accepted = true ∧
    (mine milestoneProfile 86400 86400 false false).payout = 62 ∧
    (mine milestoneProfile 86400 86400 false false).profile.balance
      ≠ milestoneProfile.balance + (mine milestoneProfile 86400 86400 false false).payout := by
  refine ⟨by decide, ?_, ?_⟩ <;>
    norm_num [mine, mine.mineBody, milestoneProfile, UserProfile.new, get_daily_limit,
      has_active_plan, ENERGY_PLANS, calculate_level, calculate_level_bonus, pyInt,
      STREAK_BONUS, MAX_STREAK_BONUS, LEVEL_BONUS_PERCENT, check_daily_streak,
      daysDifference, check_achievements, achievementsAfter]

/-- Claim C3 (corrected).  A claim attempt within 24 hours of the previous
claim is always rejected, but the reported reason is `CooldownActive` only
when the user still has an active plan: the entitlement check runs first
(bot.py line 434 before line 463), so with an expired or missing plan the
rejection reason is `NoActivePlan`. -/
theorem c3_cooldown_rejection (p : UserProfile) (now nowStreak : ℤ) (jb eb : Bool) (l : ℤ)
    (hl : p.last_mine_time = some l) (hcd : now - l < 86400) :
    (mine p now nowStreak jb eb).accepted = false ∧
    (has_active_plan p now = true →
      (mine p now nowStreak jb eb).reason = some MineReason.CooldownActive) ∧
    (has_active_plan p now = false →
      (mine p now nowStreak jb eb).reason = some MineReason.NoActivePlan) := by
  unfold mine
  by_cases hp : has_active_plan p now = true
  · rw [if_neg (not_not_intro hp), hl]
    dsimp only
    rw [if_pos hcd]
    exact ⟨rfl, fun _ => rfl, fun hf => by simp [hp] at hf⟩
  · rw [if_pos hp]
    exact ⟨rfl, fun hpp => absurd hpp hp, fun _ => rfl⟩

/-- Claim C3, witness: the 6-day-streak user claims again one hour after the
last claim while the plan is active, and is rejected with CooldownActive. -/
theorem c3_cooldown_witness :
    milestoneProfile.last_mine_time = some 0 ∧ (3600 : ℤ) - 0 < 86400 ∧
    has_active_plan milestoneProfile 3600 = true ∧
    ((mine milestoneProfile 3600 3600 false false).accepted = false ∧
      (has_active_plan milestoneProfile 3600 = true →
        (mine milestoneProfile 3600 3600 false false).reason
          = some MineReason.CooldownActive) ∧
      (has_active_plan milestoneProfile 3600 = false →
        (mine milestoneProfile 3600 3600 false false).reason
          = some MineReason.NoActivePlan)) :=
  ⟨by decide, by decide, by decide,
    c3_cooldown_rejection milestoneProfile 3600 3600 false false 0 (by decide) (by decide)⟩

/-- Claim C3, counterexample to the claim as stated: a user whose plan
expired claims one hour after the previous claim (cooldown still active);
the rejection reason is NoActivePlan, not CooldownActive. -/
theorem c3_expired_plan_counterexample :
    expiredPlanProfile.last_mine_time = some 0 ∧ (3600 : ℤ) - 0 < 86400 ∧
    (mine expiredPlanProfile 3600 3600 false false).reason = some MineReason.NoActivePlan ∧
    (mine expiredPlanProfile 3600 3600 false false).reason
      ≠ some MineReason.CooldownActive :=
  ⟨by decide, by decide, by decide, by decide⟩

/-- Claim C4 (code bug).  `verify_task` fetches the profile with
`user_profiles.get(user_id, UserProfile(user_id))` (bot.py line 1154): when
the user has no stored profile, the reward is credited to the freshly
constructed default object, which is never written back to the store.  At
this input the task is marked completed for user 7 while the profile store
is left unchanged (the credit is lost), contradicting the claim's
"stored profile balance is credited by exactly task.reward". -/
theorem c4_missing_profile_drops_credit :
    (verify_task channelTask [] 7 true).1 = TaskResult.Awarded ∧
    (verify_task channelTask [] 7 true).2.1.completed_by = [7] ∧
    (verify_task channelTask [] 7 true).2.2 = ([] : Store) ∧
    findProfile (verify_task channelTask [] 7 true).2.2 7 = none :=
  ⟨rfl, rfl, rfl, rfl⟩

/-- Claim C5 (corrected).  After `check_daily_streak`, the invariant
`highest_streak >= current_streak` holds on the increment branch
unconditionally, and on the streak-broken reset branch provided
`highest_streak >= 1` already held (the reset leaves `highest_streak`
untouched while setting `current_streak = 1`, bot.py line 357). -/
theorem c5_streak_invariant_after_advance (p : UserProfile) (now : ℤ)
    (hpre : p.current_streak ≤ p.highest_streak)
    (hres : ∀ l, p.last_mine_time = some l → 1 < daysDifference now l →
      1 ≤ p.highest_streak) :
    (check_daily_streak p now).profile.current_streak ≤
      (check_daily_streak p now).profile.highest_streak := by
  cases hl : p.last_mine_time with
  | none =>
      unfold check_daily_streak
      rw [hl]
      exact hpre
  | some l =>
      by_cases hd : daysDifference now l ≤ 1
      · obtain ⟨hcs, hhs, _, _, _⟩ := check_daily_streak_increment p now l hl hd
        rw [hcs, hhs]
        exact le_max_left _ _
      · obtain ⟨hcs, hhs, _, _, _⟩ := check_daily_streak_reset p now l hl hd
        rw [hcs, hhs]
        exact hres l hl (by omega)

/-- Claim C5, witness: the 4-day-streak user hits the reset branch two days
after the last claim and the invariant still holds (1 <= 4). -/
theorem c5_invariant_witness :
    streak4Profile.current_streak ≤ streak4Profile.highest_streak ∧
    (check_daily_streak streak4Profile 200000).profile.current_streak ≤
      (check_daily_streak streak4Profile 200000).profile.highest_streak :=
  ⟨by decide,
    c5_streak_invariant_after_advance streak4Profile 200000 (by decide)
      (fun l hl hd => by decide)⟩

/-- Claim C5, counterexample to the claim as stated: a profile with a
recorded last-claim time but zero streak counters takes the reset branch
(two days later) and ends with current_streak = 1 > highest_streak = 0. -/
theorem c5_zero_streak_counterexample :
    ¬ ((check_daily_streak zeroStreakProfile 200000).profile.current_streak ≤
        (check_daily_streak zeroStreakProfile 200000).profile.highest_streak) := by
  decide

/-- Claim C6 (confirmed).  Referral signup attribution takes effect exactly
when the referrer differs from the new user, the referrer has a profile and
the new user has none; then the referrer gains the flat reward and one
referral, the new profile starts with the flat reward and a permanent
`referred_by`, re-running `start` with the same argument is a no-op, and
whenever any of the three conditions fails the referral block leaves the
store untouched. -/
theorem c6_referral_first_contact_only (s : Store) (uid r : ℕ) (rp : UserProfile)
    (hne : r ≠ uid) (hr : findProfile s r = some rp) (hu : findProfile s uid = none) :
    findProfile (start s uid (some r)) r
      = some { rp with
                 balance := rp.balance + REFERRAL_REWARD,
                 referral_count := rp.referral_count + 1 } ∧
    findProfile (start s uid (some r)) uid
      = some { UserProfile.new uid with
                 balance := REFERRAL_REWARD, referred_by := some r } ∧
    start (start s uid (some r)) uid (some r) = start s uid (some r) ∧
    (∀ (t : Store) (u a : ℕ),
      (a = u ∨ findProfile t a = none ∨ (∃ q, findProfile t u = some q)) →
        handle_referral t u (some a) = t) := by
  have href : handle_referral s uid (some r) =
      setProfile (setProfile s r
          { rp with
              balance := rp.balance + REFERRAL_REWARD,
              referral_count := rp.referral_count + 1 }) uid
        { UserProfile.new uid with
            balance := REFERRAL_REWARD, referred_by := some r } := by
    unfold handle_referral
    dsimp only
    rw [if_pos hne, hr, hu]
  have hfind_uid : findProfile (handle_referral s uid (some r)) uid
      = some { UserProfile.new uid with
                 balance := REFERRAL_REWARD, referred_by := some r } := by
    rw [href, findProfile_setProfile_self]
  have hstart : start s uid (some r) = handle_referral s uid (some r) := by
    simp only [start]
    rw [hfind_uid]
  have hfind_uid2 : findProfile (start s uid (some r)) uid
      = some { UserProfile.new uid with
                 balance := REFERRAL_REWARD, referred_by := some r } := by
    rw [hstart]
    exact hfind_uid
  have hfind_r : findProfile (start s uid (some r)) r
      = some { rp with
                 balance := rp.balance + REFERRAL_REWARD,
                 referral_count := rp.referral_count + 1 } := by
    rw [hstart, href, findProfile_setProfile_other _ _ _ _ (Ne.symm hne),
      findProfile_setProfile_self]
  have honly : ∀ (t : Store) (u a : ℕ),
      (a = u ∨ findProfile t a = none ∨ (∃ q, findProfile t u = some q)) →
        handle_referral t u (some a) = t := by
    intro t u a hcond
    unfold handle_referral
    dsimp only
    rcases hcond with hau | hta | ⟨q, htu⟩
    · rw [if_neg (by simpa using hau)]
    · by_cases hau : a = u
      · rw [if_neg (by simpa using hau)]
      · rw [if_pos hau, hta]
    · by_cases hau : a = u
      · rw [if_neg (by simpa using hau)]
      · rw [if_pos hau]
        cases hfa : findProfile t a with
        | none => rfl
        | some q2 => rw [htu]
  refine ⟨hfind_r, hfind_uid2, ?_, honly⟩
  exact start_of_settled _ _ _ _
    (honly (start s uid (some r)) uid r (Or.inr (Or.inr ⟨_, hfind_uid2⟩))) hfind_uid2

/-- Claim C6, witness: user 20 signs up with referrer 10 on a store holding
only user 10; all four conclusions hold at this input. -/
theorem c6_referral_witness :
    (10 : ℕ) ≠ 20 ∧ findProfile referrerStore 10 = some (UserProfile.new 10) ∧
    findProfile referrerStore 20 = none ∧
    (findProfile (start referrerStore 20 (some 10)) 10
      = some { UserProfile.new 10 with
                 balance := (UserProfile.new 10).balance + REFERRAL_REWARD,
                 referral_count := (UserProfile.new 10).referral_count + 1 } ∧
     findProfile (start referrerStore 20 (some 10)) 20
      = some { UserProfile.new 20 with
                 balance := REFERRAL_REWARD, referred_by := some 10 } ∧
     start (start referrerStore 20 (some 10)) 20 (some 10) = start referrerStore 20 (some 10) ∧
     (∀ (t : Store) (u a : ℕ),
       (a = u ∨ findProfile t a = none ∨ (∃ q, findProfile t u = some q)) →
         handle_referral t u (some a) = t)) :=
  ⟨by decide, by decide, by decide,
    c6_referral_first_contact_only referrerStore 20 10 (UserProfile.new 10)
      (by decide) (by decide) (by decide)⟩

/-- Claim C7 (confirmed).  A claim attempt by a user whose profile has no
entitlement plan is rejected with NoActivePlan and the profile is returned
entirely unchanged: balance, total_mined, mining_count, current_streak,
highest_streak, last claim time and the achievement set are untouched. -/
theorem c7_no_plan_rejection_no_mutation (p : UserProfile) (now nowStreak : ℤ) (jb eb : Bool)
    (h : p.energy_plan = none) :
    (mine p now nowStreak jb eb).accepted = false ∧
    (mine p now nowStreak jb eb).reason = some MineReason.NoActivePlan ∧
    (mine p now nowStreak jb eb).profile = p ∧
    (mine p now nowStreak jb eb).profile.balance = p.balance ∧
    (mine p now nowStreak jb eb).profile.total_mined = p.total_mined ∧
    (mine p now nowStreak jb eb).profile.mining_count = p.mining_count ∧
    (mine p now nowStreak jb eb).profile.current_streak = p.current_streak ∧
    (mine p now nowStreak jb eb).profile.highest_streak = p.highest_streak ∧
    (mine p now nowStreak jb eb).profile.last_mine_time = p.last_mine_time ∧
    (mine p now nowStreak jb eb).profile.achievements = p.achievements := by
  have hp : has_active_plan p now = false := by
    unfold has_active_plan
    rw [h]
  unfold mine
  rw [if_pos (by simp [hp])]
  exact ⟨rfl, rfl, rfl, rfl, rfl, rfl, rfl, rfl, rfl, rfl⟩

/-- Claim C7, witness: a brand-new user (no plan ever purchased) attempts a
claim and is rejected without any profile mutation. -/
theorem c7_no_plan_witness :
    (UserProfile.new 6).energy_plan = none ∧
    ((mine (UserProfile.new 6) 0 0 false false).accepted = false ∧
      (mine (UserProfile.new 6) 0 0 false false).reason = some MineReason.NoActivePlan ∧
      (mine (UserProfile.new 6) 0 0 false false).profile = UserProfile.new 6 ∧
      (mine (UserProfile.new 6) 0 0 false false).profile.balance = (UserProfile.new 6).balance ∧
      (mine (UserProfile.new 6) 0 0 false false).profile.total_mined
        = (UserProfile.new 6).total_mined ∧
      (mine (UserProfile.new 6) 0 0 false false).profile.mining_count
        = (UserProfile.new 6).mining_count ∧
      (mine (UserProfile.new 6) 0 0 false false).profile.current_streak
        = (UserProfile.new 6).current_streak ∧
      (mine (UserProfile.new 6) 0 0 false false).profile.highest_streak
        = (UserProfile.new 6).highest_streak ∧
      (mine (UserProfile.new 6) 0 0 false false).profile.last_mine_time
        = (UserProfile.new 6).last_mine_time ∧
      (mine (UserProfile.new 6) 0 0 false false).profile.achievements
        = (UserProfile.new 6).achievements) :=
  ⟨by decide, c7_no_plan_rejection_no_mutation (UserProfile.new 6) 0 0 false false (by decide)⟩

/-- Claim C9 (confirmed).  A user with no prior claims holding an active
"max" plan (daily limit 50): the claim is accepted with base 50, streak
bonus 0, level 0 and level bonus 0; the payout is 55 when the jackpot draw
succeeds and 50 otherwise, and the streak ends at 1. -/
theorem c9_first_claim_scenario (uid : ℕ) (now e nowStreak : ℤ) (jb eb : Bool)
    (hact : now < e) (h1 : now ≤ nowStreak) (h2 : nowStreak < now + 86400) :
    (mine { UserProfile.new uid with
              energy_plan := some "max", energy_expires := some e }
        now nowStreak jb eb).accepted = true ∧
    (mine { UserProfile.new uid with
              energy_plan := some "max", energy_expires := some e }
        now nowStreak jb eb).base = 50 ∧
    (mine { UserProfile.new uid with
              energy_plan := some "max", energy_expires := some e }
        now nowStreak jb eb).streakBonus = 0 ∧
    calculate_level ({ UserProfile.new uid with
              energy_plan := some "max", energy_expires := some e } : UserProfile).total_mined
      = 0 ∧
    (mine { UserProfile.new uid with
              energy_plan := some "max", energy_expires := some e }
        now nowStreak jb eb).levelBonus = 0 ∧
    (mine { UserProfile.new uid with
              energy_plan := some "max", energy_expires := some e }
        now nowStreak jb eb).payout = (if jb then 55 else 50) ∧
    (mine { UserProfile.new uid with
              energy_plan := some "max", energy_expires := some e }
        now nowStreak jb eb).profile.current_streak = 1 := by
  have hd0 : daysDifference nowStreak now = 0 := daysDifference_eq_zero nowStreak now h1 h2
  refine ⟨?_, ?_, ?_, ?_, ?_, ?_, ?_⟩ <;>
    cases jb <;>
    norm_num [mine, mine.mineBody, UserProfile.new, get_daily_limit, has_active_plan,
      ENERGY_PLANS, calculate_level, calculate_level_bonus, pyInt, STREAK_BONUS,
      MAX_STREAK_BONUS, LEVEL_BONUS_PERCENT, check_daily_streak, hd0, hact,
      check_achievements, achievementsAfter]

/-- Claim C9, witness at user 1, claim time 0, plan expiring at 1000000,
jackpot draw failing. -/
theorem c9_first_claim_witness :
    (0 : ℤ) < 1000000 ∧ (0 : ℤ) ≤ 0 ∧ (0 : ℤ) < 0 + 86400 ∧
    ((mine { UserProfile.new 1 with
               energy_plan := some "max", energy_expires := some 1000000 }
        0 0 false false).accepted = true ∧
     (mine { UserProfile.new 1 with
               energy_plan := some "max", energy_expires := some 1000000 }
        0 0 false false).base = 50 ∧
     (mine { UserProfile.new 1 with
               energy_plan := some "max", energy_expires := some 1000000 }
        0 0 false false).streakBonus = 0 ∧
     calculate_level ({ UserProfile.new 1 with
               energy_plan := some "max", energy_expires := some 1000000 } : UserProfile).total_mined
       = 0 ∧
     (mine { UserProfile.new 1 with
               energy_plan := some "max", energy_expires := some 1000000 }
        0 0 false false).levelBonus = 0 ∧
     (mine { UserProfile.new 1 with
               energy_plan := some "max", energy_expires := some 1000000 }
        0 0 false false).payout = (if false then 55 else 50) ∧
     (mine { UserProfile.new 1 with
               energy_plan := some "max", energy_expires := some 1000000 }
        0 0 false false).profile.current_streak = 1) :=
  ⟨by decide, by decide, by decide,
    c9_first_claim_scenario 1 0 1000000 0 false false (by decide) (by decide) (by decide)⟩

/-- Claim C10 (confirmed).  `mine` overwrites `last_mine_time` with the
claim's current time BEFORE `check_daily_streak` runs, so (with the streak
check's clock read within a day of the claim's) the day difference it
computes is 0, every successful claim takes the increment branch adding
exactly 1 to `current_streak`, and the streak-broken branch never runs
during a claim. -/
theorem c10_streak_always_increments (p : UserProfile) (now nowStreak : ℤ) (jb eb : Bool)
    (hacc : (mine p now nowStreak jb eb).accepted = true)
    (h1 : now ≤ nowStreak) (h2 : nowStreak < now + 86400) :
    daysDifference nowStreak now = 0 ∧
    (mine p now nowStreak jb eb).profile.current_streak = p.current_streak + 1 ∧
    (mine p now nowStreak jb eb).streakBroken = false := by
  have hd0 : daysDifference nowStreak now = 0 := daysDifference_eq_zero nowStreak now h1 h2
  rw [mine_accepted_body p now nowStreak jb eb hacc]
  refine ⟨hd0, ?_, ?_⟩
  · rw [mineBody_profile]
    set q := (mine.mineBody p now nowStreak jb eb).payout with hq
    set P1 : UserProfile :=
      { p with balance := p.balance + q, total_mined := p.total_mined + q,
               mining_count := p.mining_count + 1, last_mine_time := some now } with hP1
    obtain ⟨_, _, _, hc, _, _⟩ :=
      check_achievements_fields (check_daily_streak P1 nowStreak).profile eb
    rw [hc]
    obtain ⟨hcs, _, _, _, _⟩ :=
      check_daily_streak_increment P1 nowStreak now rfl (by rw [hd0]; omega)
    rw [hcs]
  · rw [mineBody_streakBroken]
    set q := (mine.mineBody p now nowStreak jb eb).payout with hq
    set P1 : UserProfile :=
      { p with balance := p.balance + q, total_mined := p.total_mined + q,
               mining_count := p.mining_count + 1, last_mine_time := some now } with hP1
    obtain ⟨_, _, _, _, hbr⟩ :=
      check_daily_streak_increment P1 nowStreak now rfl (by rw [hd0]; omega)
    rw [hbr]

/-- Claim C10, witness: the fresh max-plan user's claim at time 0 increments
the streak from 0 to 1 and reports no broken streak. -/
theorem c10_streak_witness :
    (mine freshMaxProfile 0 0 false false).accepted = true ∧ (0 : ℤ) ≤ 0 ∧
    (0 : ℤ) < 0 + 86400 ∧
    (daysDifference 0 0 = 0 ∧
      (mine freshMaxProfile 0 0 false false).profile.current_streak
        = freshMaxProfile.current_streak + 1 ∧
      (mine freshMaxProfile 0 0 false false).streakBroken = false) :=
  ⟨by decide, by decide, by decide,
    c10_streak_always_increments freshMaxProfile 0 0 false false
      (by decide) (by decide) (by decide)⟩

end Mega
